import Mathlib

/-!
# Verification of the newsroom-app core logic

Shallow embedding, in Lean 4, of the core logic of the `newsroom-app`
repository (`src/app.py`, `src/check_jobs.py`, `src/migrate.py`):

* the temporal-spatial consistency engine (interval checker and store),
  which in the repository lives server-side in `schema.sql` (applied by
  `src/migrate.py`) and is therefore modelled from the specification;
* the checkpointed background writer pipeline `background_writer_task`
  of `src/app.py`, with its status updates `update_chapter_status`;
* the drain check `check_active_jobs` of `src/check_jobs.py`.

Provider calls (Gemini, Exa) and database round-trips are modelled by an
explicit outcome schedule: each call's result (success with a payload,
recoverable failure, or an unhandled exception) is an input to the
embedded function, and the embedded function reproduces the control flow
of the Python source on each outcome.
-/

namespace Newsroom

/-! ## Interval consistency checker (modelled from the spec)

The checker and store are not in `src/`: the repository enforces the
consistency rule as a database trigger in `schema.sql`, which is applied
by `src/migrate.py` but whose text is not among the source files.  The
definitions in this section are therefore modelled from the spec. -/

/-- Granularity of an assignment's dates: `exact` means the day is
trustworthy, `approximate` means only the year is. -/
inductive Gran where
  | exact
  | approximate
deriving DecidableEq, Repr

/-- Modelled from the spec: an Assignment "entity E occupied place P during
[start, end]".  Dates are modelled as integers (proleptic day numbers, so
"BC" dates are negative); `place` may be the sentinel `"Unknown"`. -/
structure Assignment where
  entity : String
  place : String
  startD : Int
  endD : Int
  granularity : Gran
deriving DecidableEq, Repr

/-- Standard closed-interval overlap test on the `[start, end]` intervals
of two assignments. -/
def overlaps (a b : Assignment) : Bool :=
  decide (a.startD ≤ b.endD) && decide (b.startD ≤ a.endD)

/-- Modelled from the spec (§4.1): existing assignment `e` genuinely
conflicts with the candidate iff same entity, different place, neither
place is the `"Unknown"` wildcard, closed intervals overlap, and both
granularities are `exact`. -/
def genuineConflict (cand e : Assignment) : Bool :=
  (e.entity == cand.entity) && (e.place != cand.place) &&
  (e.place != "Unknown") && (cand.place != "Unknown") &&
  overlaps e cand &&
  (e.granularity == Gran.exact) && (cand.granularity == Gran.exact)

/-- Result of the consistency check: accept, or conflict carrying the
conflicting existing assignment(s). -/
inductive CheckResult where
  | Accept
  | Conflict (conflicting : List Assignment)
deriving DecidableEq, Repr

/-- Modelled from the spec: `check(candidate, existing)` returns `Conflict`
with the list of genuinely conflicting existing assignments when that list
is non-empty, `Accept` otherwise. -/
def check (cand : Assignment) (existing : List Assignment) : CheckResult :=
  match existing.filter (genuineConflict cand) with
  | [] => CheckResult.Accept
  | cs => CheckResult.Conflict cs

/-- The propositional form of `genuineConflict`. -/
def GenuineConflictP (cand e : Assignment) : Prop :=
  e.entity = cand.entity ∧ e.place ≠ cand.place ∧
  e.place ≠ "Unknown" ∧ cand.place ≠ "Unknown" ∧
  e.startD ≤ cand.endD ∧ cand.startD ≤ e.endD ∧
  e.granularity = Gran.exact ∧ cand.granularity = Gran.exact

instance (cand e : Assignment) : Decidable (GenuineConflictP cand e) := by
  unfold GenuineConflictP; infer_instance

theorem genuineConflict_eq_true_iff (cand e : Assignment) :
    genuineConflict cand e = true ↔ GenuineConflictP cand e := by
  unfold genuineConflict GenuineConflictP overlaps
  simp [Bool.and_eq_true, bne_iff_ne, beq_iff_eq, and_assoc]

theorem check_eq_accept_iff (cand : Assignment) (existing : List Assignment) :
    check cand existing = CheckResult.Accept ↔
      existing.filter (genuineConflict cand) = [] := by
  unfold check
  cases h : existing.filter (genuineConflict cand) with
  | nil => simp
  | cons c cs => simp

theorem check_eq_conflict_iff (cand : Assignment) (existing : List Assignment) :
    (∃ cs, check cand existing = CheckResult.Conflict cs) ↔
      existing.filter (genuineConflict cand) ≠ [] := by
  unfold check
  cases h : existing.filter (genuineConflict cand) with
  | nil => simp
  | cons c cs => simp

/-! ## Consistency store (modelled from the spec) -/

/-- Modelled from the spec: upsert of the Entity record on accepted
assignments — idempotent, duplicate entity names are not an error. -/
def upsertEntity (entities : List String) (name : String) : List String :=
  if name ∈ entities then entities else entities ++ [name]

/-- The persistent store's state: accepted assignments plus entity
records. -/
structure StoreState where
  assignments : List Assignment
  entities : List String
deriving DecidableEq, Repr

/-- Result of proposing a fact to the store. -/
inductive ProposeResult where
  | Accepted
  | Rejected (conflicting : List Assignment)
deriving DecidableEq, Repr

/-- Modelled from the spec (§4.2): `propose` reads all existing
assignments for the candidate's entity, runs the checker, and only on
`Accept` persists the assignment (and upserts the entity record); on
`Conflict` it persists nothing and returns the conflicting
assignment(s). -/
def propose (st : StoreState) (cand : Assignment) : ProposeResult × StoreState :=
  let existing := st.assignments.filter (fun e => e.entity == cand.entity)
  match check cand existing with
  | CheckResult.Accept =>
      (ProposeResult.Accepted,
        { assignments := st.assignments ++ [cand],
          entities := upsertEntity st.entities cand.entity })
  | CheckResult.Conflict cs => (ProposeResult.Rejected cs, st)

/-! ## Chapter rows and `update_chapter_status` (src/app.py, lines 249-261)

A chapter row is modelled by the two columns the writer pipeline touches:
`status` and `content` (`content` is nullable).  `update_chapter_status`
mirrors the Python function: the `if content:` guard is Python
truthiness, so both `None` and the empty string lead to the status-only
`UPDATE`. -/

/-- One row of `book_chapters`, restricted to the columns the writer
pipeline reads and writes. -/
structure ChapterRow where
  status : String
  content : Option String
deriving DecidableEq, Repr

/-- Python truthiness of an optional string: `None` and `""` are falsy. -/
def pyTruthy : Option String → Bool
  | none => false
  | some s => s ≠ ""

/-- Embeds `update_chapter_status(chapter_id, status, content=None)`: when
`content` is truthy both columns are updated, otherwise only `status`. -/
def update_chapter_status (row : ChapterRow) (status : String)
    (content : Option String) : ChapterRow :=
  if pyTruthy content then { status := status, content := content }
  else { row with status := status }

/-! ## The background writer pipeline (src/app.py, lines 263-399)

The Gemini call for one subtopic either succeeds (returning the parsed
`text` and `summary`), fails with an exception caught by the per-scene
`except` (`SceneStep.fail`), or an unhandled exception escapes at this
iteration — the `time.sleep(2)` at the top of the loop body sits outside
the per-scene `try`, so a fault there propagates to the outer handler
(`SceneStep.abort`). -/

/-- Outcome of one iteration of the recursive writing loop. -/
inductive SceneStep where
  | ok (text summary : String)
  | fail
  | abort
deriving DecidableEq, Repr

/-- `full_narrative += f"## {subtopic}\n{new_text}\n\n"` for a scene the
provider wrote successfully. -/
def sectionBlock (subtopic text : String) : String :=
  "## " ++ subtopic ++ "\n" ++ text ++ "\n\n"

/-- `full_narrative += f"\n\n[Error writing section: {subtopic}]\n\n"` for
a scene whose provider call failed. -/
def placeholderBlock (subtopic : String) : String :=
  "\n\n[Error writing section: " ++ subtopic ++ "]\n\n"

/-- `full_narrative = f"# {chapter_topic}\n\n"`, the initial narrative. -/
def chapterHeader (topic : String) : String :=
  "# " ++ topic ++ "\n\n"

/-- Result of the writing loop: the accumulated `full_narrative`, the
contents passed to `update_chapter_status(id, "Processing", ...)` at each
checkpoint (in order), and whether an unhandled exception escaped. -/
structure LoopResult where
  narrative : String
  checkpoints : List String
  aborted : Bool
deriving DecidableEq, Repr

/-- Embeds the `for subtopic in subtopics:` loop.  Each scene is paired
with its provider outcome.  On success the section is appended, the
summary carried forward, and the narrative checkpointed; on a caught
failure the placeholder is appended (no checkpoint, summary unchanged);
on an unhandled exception the loop stops with what has accumulated. -/
def writeLoop : List (String × SceneStep) → String → String → LoopResult
  | [], narrative, _ => ⟨narrative, [], false⟩
  | (_, SceneStep.abort) :: _, narrative, _ => ⟨narrative, [], true⟩
  | (sub, SceneStep.ok t s) :: rest, narrative, _ =>
      let n := narrative ++ sectionBlock sub t
      let r := writeLoop rest n s
      ⟨r.narrative, n :: r.checkpoints, r.aborted⟩
  | (sub, SceneStep.fail) :: rest, narrative, summary =>
      writeLoop rest (narrative ++ placeholderBlock sub) summary

/-- Applies the sequence of mid-run `update_chapter_status(id,
"Processing", full_narrative)` checkpoint writes to the row, returning
every intermediate row state. -/
def applyCheckpoints (row : ChapterRow) : List String → List ChapterRow
  | [] => []
  | c :: rest =>
      let r := update_chapter_status row "Processing" (some c)
      r :: applyCheckpoints r rest

/-- The last element of `rows`, or `row` when no checkpoint was written. -/
def lastRow (row : ChapterRow) (rows : List ChapterRow) : ChapterRow :=
  rows.getLast?.getD row

/-- A run's outcome: the final row and the trace of row states after each
`update_chapter_status` call, in order. -/
structure RunResult where
  final : ChapterRow
  trace : List ChapterRow
deriving DecidableEq, Repr

/-- Embeds `background_writer_task(chapter_id, chapter_topic, ...)`.

`fetchOk` is the outcome of the fetch phase (the direct psycopg2 reads at
the top of the function, which have no local `try` and so escape to the
outer handler on failure).  `scenes` pairs each planned subtopic with the
outcome of its provider call.  The function first marks the row
`Processing` unconditionally (a plain `UPDATE`, no status check), runs
the loop, and ends with the `Completed` save — or, when an unhandled
exception escaped, with `update_chapter_status(chapter_id, "Error")`,
which carries no content argument. -/
def background_writer_task (topic : String) (fetchOk : Bool)
    (scenes : List (String × SceneStep)) (row0 : ChapterRow) : RunResult :=
  let row1 := update_chapter_status row0 "Processing" none
  if fetchOk then
    let r := writeLoop scenes (chapterHeader topic) "The chapter begins."
    let rows := applyCheckpoints row1 r.checkpoints
    let last := lastRow row1 rows
    if r.aborted then
      let rowE := update_chapter_status last "Error" none
      ⟨rowE, row1 :: rows ++ [rowE]⟩
    else
      let rowF := update_chapter_status last "Completed" (some r.narrative)
      ⟨rowF, row1 :: rows ++ [rowF]⟩
  else
    let rowE := update_chapter_status row1 "Error" none
    ⟨rowE, [row1, rowE]⟩

/-! ## Subtopic planning (src/app.py, lines 332-342) -/

/-- Outcome of the planning call: either the Gemini response parsed (after
the JSON/dict normalization in the source) to a list of subtopic titles,
or the call failed / its output was unusable and the `except` ran. -/
inductive PlanOutcome where
  | parsed (subtopics : List String)
  | failed
deriving DecidableEq, Repr

/-- Embeds the planning step: on success the parsed list is used as-is;
on any exception the fixed fallback
`["Introduction", "Main Event", "Conclusion"]` is used. -/
def plannedSubtopics : PlanOutcome → List String
  | PlanOutcome.parsed l => l
  | PlanOutcome.failed => ["Introduction", "Main Event", "Conclusion"]

/-! ## The drain check (src/check_jobs.py, lines 9-39) -/

/-- Embeds `check_active_jobs()`, returning the process exit code.  The
store query either fails (any exception: exit 1, fail closed) or returns
the list of chapter statuses; the count of `'Processing'` rows decides
the exit code: positive means 1 (busy), zero means 0 (idle). -/
def check_active_jobs (store : Except Unit (List String)) : Nat :=
  match store with
  | Except.error _ => 1
  | Except.ok statuses =>
      let active_count := (statuses.filter (fun s => s == "Processing")).length
      if active_count > 0 then 1 else 0

/-! ## Derived notions about the writing loop -/

/-- The block of text a scene contributes to `full_narrative`: its section
on success, its error placeholder on a caught failure (an aborting scene
contributes nothing). -/
def sceneBlock : String × SceneStep → String
  | (sub, SceneStep.ok t _) => sectionBlock sub t
  | (sub, SceneStep.fail) => placeholderBlock sub
  | (_, SceneStep.abort) => ""

/-- Concatenation, in outline order, of the blocks of a list of scenes. -/
def renderScenes : List (String × SceneStep) → String
  | [] => ""
  | sc :: rest => sceneBlock sc ++ renderScenes rest

/-- No scene of the run hits an unhandled exception. -/
def NoAbort (scenes : List (String × SceneStep)) : Prop :=
  ∀ p ∈ scenes, p.2 ≠ SceneStep.abort

instance (scenes : List (String × SceneStep)) : Decidable (NoAbort scenes) := by
  unfold NoAbort; infer_instance

/-- Whether a scene step is a provider success. -/
def isOkStep : SceneStep → Bool
  | SceneStep.ok _ _ => true
  | _ => false

/-- Whether the scene at index `j` is a provider success. -/
def okAt (scenes : List (String × SceneStep)) (j : Nat) : Bool :=
  match scenes[j]? with
  | some p => isOkStep p.2
  | none => false

/-- The expected checkpoint contents: one entry per successful scene at
index `j`, holding the narrative prefix `narr` followed by the blocks of
the first `j + 1` scenes in outline order. -/
def checkpointSpec (narr : String) (scenes : List (String × SceneStep)) : List String :=
  (List.range scenes.length).filterMap (fun j =>
    if okAt scenes j then some (narr ++ renderScenes (scenes.take (j + 1))) else none)

/-- `b` extends `a` on the right. -/
def ExtendsTo (a b : String) : Prop := ∃ t, b = a ++ t

theorem renderScenes_append (l₁ l₂ : List (String × SceneStep)) :
    renderScenes (l₁ ++ l₂) = renderScenes l₁ ++ renderScenes l₂ := by
  induction l₁ with
  | nil => simp [renderScenes]
  | cons x rest ih => simp [renderScenes, ih, String.append_assoc]

theorem checkpointSpec_nil (narr : String) : checkpointSpec narr [] = [] := by
  simp [checkpointSpec]

theorem okAt_cons_succ (x : String × SceneStep) (rest : List (String × SceneStep))
    (j : Nat) : okAt (x :: rest) (j + 1) = okAt rest j := by
  unfold okAt
  rw [List.getElem?_cons_succ]

theorem okAt_cons_zero (x : String × SceneStep) (rest : List (String × SceneStep)) :
    okAt (x :: rest) 0 = isOkStep x.2 := by
  unfold okAt
  rw [List.getElem?_cons_zero]

theorem checkpointSpec_cons (narr : String) (x : String × SceneStep)
    (rest : List (String × SceneStep)) :
    checkpointSpec narr (x :: rest) =
      (if isOkStep x.2 then [narr ++ sceneBlock x] else []) ++
        checkpointSpec (narr ++ sceneBlock x) rest := by
  unfold checkpointSpec
  rw [List.length_cons, List.range_succ_eq_map, List.filterMap_cons]
  have hshift :
      ((fun j =>
          if okAt (x :: rest) j then
            some (narr ++ renderScenes ((x :: rest).take (j + 1)))
          else none) ∘ Nat.succ) =
        fun j =>
          if okAt rest j then
            some ((narr ++ sceneBlock x) ++ renderScenes (rest.take (j + 1)))
          else none := by
    funext j
    simp only [Function.comp_apply, okAt_cons_succ, List.take_succ_cons, renderScenes,
      String.append_assoc]
  rw [List.filterMap_map, hshift]
  simp only [okAt_cons_zero, List.take_succ_cons, List.take_zero, renderScenes,
    String.append_empty]
  cases h : isOkStep x.2 <;> simp

theorem checkpointSpec_cons_ok (narr sub t s : String)
    (rest : List (String × SceneStep)) :
    checkpointSpec narr ((sub, SceneStep.ok t s) :: rest) =
      (narr ++ sectionBlock sub t) ::
        checkpointSpec (narr ++ sectionBlock sub t) rest := by
  rw [checkpointSpec_cons]
  simp [isOkStep, sceneBlock]

theorem checkpointSpec_cons_fail (narr sub : String)
    (rest : List (String × SceneStep)) :
    checkpointSpec narr ((sub, SceneStep.fail) :: rest) =
      checkpointSpec (narr ++ placeholderBlock sub) rest := by
  rw [checkpointSpec_cons]
  simp [isOkStep, sceneBlock]

theorem checkpointSpec_cons_abort (narr sub : String)
    (rest : List (String × SceneStep)) :
    checkpointSpec narr ((sub, SceneStep.abort) :: rest) =
      checkpointSpec narr rest := by
  rw [checkpointSpec_cons]
  simp [isOkStep, sceneBlock, String.append_empty]

theorem extendsTo_trans {a b c : String} (h₁ : ExtendsTo a b) (h₂ : ExtendsTo b c) :
    ExtendsTo a c := by
  obtain ⟨t, rfl⟩ := h₁
  obtain ⟨u, rfl⟩ := h₂
  exact ⟨t ++ u, String.append_assoc a t u⟩

theorem checkpointSpec_extends :
    ∀ (scenes : List (String × SceneStep)) (narr : String),
      ∀ c ∈ checkpointSpec narr scenes, ExtendsTo narr c := by
  intro scenes
  induction scenes with
  | nil => intro narr c hc; rw [checkpointSpec_nil] at hc; cases hc
  | cons x rest ih =>
    intro narr c hc
    obtain ⟨sub, step⟩ := x
    cases step with
    | ok t s =>
      rw [checkpointSpec_cons_ok] at hc
      rcases List.mem_cons.mp hc with h | h
      · exact ⟨sectionBlock sub t, h⟩
      · exact extendsTo_trans ⟨sectionBlock sub t, rfl⟩ (ih (narr ++ sectionBlock sub t) c h)
    | fail =>
      rw [checkpointSpec_cons_fail] at hc
      exact extendsTo_trans ⟨placeholderBlock sub, rfl⟩
        (ih (narr ++ placeholderBlock sub) c hc)
    | abort =>
      rw [checkpointSpec_cons_abort] at hc
      exact ih narr c hc

theorem checkpointSpec_chain :
    ∀ (scenes : List (String × SceneStep)) (narr : String),
      List.Chain' ExtendsTo (narr :: checkpointSpec narr scenes) := by
  intro scenes
  induction scenes with
  | nil => intro narr; rw [checkpointSpec_nil]; simp
  | cons x rest ih =>
    intro narr
    obtain ⟨sub, step⟩ := x
    cases step with
    | ok t s =>
      rw [checkpointSpec_cons_ok, List.chain'_cons]
      exact ⟨⟨sectionBlock sub t, rfl⟩, ih (narr ++ sectionBlock sub t)⟩
    | fail =>
      rw [checkpointSpec_cons_fail]
      obtain ⟨h1, h2⟩ := List.chain'_cons'.mp (ih (narr ++ placeholderBlock sub))
      exact List.chain'_cons'.mpr
        ⟨fun y hy => extendsTo_trans ⟨placeholderBlock sub, rfl⟩ (h1 y hy), h2⟩
    | abort =>
      rw [checkpointSpec_cons_abort]
      exact ih narr

theorem checkpointSpec_length_noAbort :
    ∀ (scenes : List (String × SceneStep)) (narr : String), NoAbort scenes →
      (checkpointSpec narr scenes).length =
        (scenes.filter (fun sc => isOkStep sc.2)).length := by
  intro scenes
  induction scenes with
  | nil => intro narr _; rw [checkpointSpec_nil]; simp
  | cons x rest ih =>
    intro narr h
    have hr : NoAbort rest := fun p hp => h p (List.mem_cons_of_mem _ hp)
    obtain ⟨sub, step⟩ := x
    cases step with
    | ok t s =>
      rw [checkpointSpec_cons_ok]
      simp only [List.length_cons, List.filter_cons]
      simp [isOkStep, ih _ hr]
    | fail =>
      rw [checkpointSpec_cons_fail]
      simp only [List.filter_cons]
      simp [isOkStep, ih _ hr]
    | abort => exact absurd rfl (h (sub, SceneStep.abort) (List.mem_cons_self _ _))

theorem writeLoop_noAbort :
    ∀ (scenes : List (String × SceneStep)) (narr summ : String), NoAbort scenes →
      writeLoop scenes narr summ =
        ⟨narr ++ renderScenes scenes, checkpointSpec narr scenes, false⟩ := by
  intro scenes
  induction scenes with
  | nil =>
    intro narr summ _
    simp [writeLoop, renderScenes, checkpointSpec_nil, String.append_empty]
  | cons x rest ih =>
    intro narr summ h
    have hr : NoAbort rest := fun p hp => h p (List.mem_cons_of_mem _ hp)
    obtain ⟨sub, step⟩ := x
    cases step with
    | ok t s =>
      simp only [writeLoop]
      rw [ih (narr ++ sectionBlock sub t) s hr]
      simp [renderScenes, sceneBlock, checkpointSpec_cons_ok, String.append_assoc]
    | fail =>
      simp only [writeLoop]
      rw [ih (narr ++ placeholderBlock sub) summ hr]
      simp [renderScenes, sceneBlock, checkpointSpec_cons_fail, String.append_assoc]
    | abort => exact absurd rfl (h (sub, SceneStep.abort) (List.mem_cons_self _ _))

theorem writeLoop_abortAt :
    ∀ (pre : List (String × SceneStep)) (sub : String)
      (post : List (String × SceneStep)) (narr summ : String), NoAbort pre →
      writeLoop (pre ++ (sub, SceneStep.abort) :: post) narr summ =
        ⟨narr ++ renderScenes pre, checkpointSpec narr pre, true⟩ := by
  intro pre
  induction pre with
  | nil =>
    intro sub post narr summ _
    simp [writeLoop, renderScenes, checkpointSpec_nil, String.append_empty]
  | cons x rest ih =>
    intro sub post narr summ h
    have hr : NoAbort rest := fun p hp => h p (List.mem_cons_of_mem _ hp)
    obtain ⟨sub', step⟩ := x
    cases step with
    | ok t s =>
      simp only [List.cons_append, writeLoop, List.append_eq]
      rw [ih sub post (narr ++ sectionBlock sub' t) s hr]
      simp [renderScenes, sceneBlock, checkpointSpec_cons_ok, String.append_assoc]
    | fail =>
      simp only [List.cons_append, writeLoop, List.append_eq]
      rw [ih sub post (narr ++ placeholderBlock sub') summ hr]
      simp [renderScenes, sceneBlock, checkpointSpec_cons_fail, String.append_assoc]
    | abort => exact absurd rfl (h (sub', SceneStep.abort) (List.mem_cons_self _ _))

theorem chapterHeader_append_ne (topic t : String) : chapterHeader topic ++ t ≠ "" := by
  intro h
  have hl := congrArg String.length h
  simp only [chapterHeader, String.length_append] at hl
  have h2 : ("# " : String).length = 2 := rfl
  have h3 : ("\n\n" : String).length = 2 := rfl
  have h0 : ("" : String).length = 0 := rfl
  omega

theorem applyCheckpoints_map :
    ∀ (cps : List String) (row : ChapterRow), (∀ c ∈ cps, c ≠ "") →
      applyCheckpoints row cps =
        cps.map (fun c => ⟨"Processing", some c⟩) := by
  intro cps
  induction cps with
  | nil => intro row _; simp [applyCheckpoints]
  | cons c rest ih =>
    intro row h
    have hc : c ≠ "" := h c (List.mem_cons_self _ _)
    have hr : ∀ d ∈ rest, d ≠ "" := fun d hd => h d (List.mem_cons_of_mem _ hd)
    simp only [applyCheckpoints, List.map_cons]
    rw [show update_chapter_status row "Processing" (some c) =
          (⟨"Processing", some c⟩ : ChapterRow) by
        simp [update_chapter_status, pyTruthy, hc]]
    rw [ih _ hr]

/-- The content column after the last mid-run checkpoint: the last
checkpointed narrative, or the row's pre-run content when no checkpoint
was written. -/
def lastContent (row : ChapterRow) (cps : List String) : Option String :=
  match cps.getLast? with
  | some c => some c
  | none => row.content

theorem lastRow_map_content (row0 : ChapterRow) (row : ChapterRow) (cps : List String)
    (h : row.content = row0.content) :
    (lastRow row (cps.map (fun c => ⟨"Processing", some c⟩))).content =
      lastContent row0 cps := by
  unfold lastRow lastContent
  rw [List.getLast?_map]
  cases cps.getLast? with
  | none => simp [h]
  | some c => simp

theorem update_none (row : ChapterRow) (st : String) :
    update_chapter_status row st none = ⟨st, row.content⟩ := by
  simp [update_chapter_status, pyTruthy]

theorem run_noAbort (topic : String) (scenes : List (String × SceneStep))
    (row0 : ChapterRow) (h : NoAbort scenes) :
    background_writer_task topic true scenes row0 =
      ⟨⟨"Completed", some (chapterHeader topic ++ renderScenes scenes)⟩,
        ⟨"Processing", row0.content⟩ ::
          ((checkpointSpec (chapterHeader topic) scenes).map
            (fun c => (⟨"Processing", some c⟩ : ChapterRow)) ++
          [⟨"Completed", some (chapterHeader topic ++ renderScenes scenes)⟩])⟩ := by
  have hcps : ∀ c ∈ checkpointSpec (chapterHeader topic) scenes, c ≠ "" := by
    intro c hc
    obtain ⟨t, rfl⟩ := checkpointSpec_extends scenes (chapterHeader topic) c hc
    exact chapterHeader_append_ne topic t
  unfold background_writer_task
  rw [writeLoop_noAbort scenes (chapterHeader topic) "The chapter begins." h]
  simp only [if_true, update_none]
  rw [applyCheckpoints_map _ _ hcps]
  have hfinal :
      update_chapter_status
        (lastRow ⟨"Processing", row0.content⟩
          ((checkpointSpec (chapterHeader topic) scenes).map
            (fun c => (⟨"Processing", some c⟩ : ChapterRow))))
        "Completed" (some (chapterHeader topic ++ renderScenes scenes)) =
      ⟨"Completed", some (chapterHeader topic ++ renderScenes scenes)⟩ := by
    simp [update_chapter_status, pyTruthy, chapterHeader_append_ne topic (renderScenes scenes)]
  rw [hfinal]
  simp

theorem run_abortAt (topic sub : String) (pre post : List (String × SceneStep))
    (row0 : ChapterRow) (h : NoAbort pre) :
    background_writer_task topic true (pre ++ (sub, SceneStep.abort) :: post) row0 =
      ⟨⟨"Error", lastContent row0 (checkpointSpec (chapterHeader topic) pre)⟩,
        ⟨"Processing", row0.content⟩ ::
          ((checkpointSpec (chapterHeader topic) pre).map
            (fun c => (⟨"Processing", some c⟩ : ChapterRow)) ++
          [⟨"Error", lastContent row0 (checkpointSpec (chapterHeader topic) pre)⟩])⟩ := by
  have hcps : ∀ c ∈ checkpointSpec (chapterHeader topic) pre, c ≠ "" := by
    intro c hc
    obtain ⟨t, rfl⟩ := checkpointSpec_extends pre (chapterHeader topic) c hc
    exact chapterHeader_append_ne topic t
  unfold background_writer_task
  rw [writeLoop_abortAt pre sub post (chapterHeader topic) "The chapter begins." h]
  simp only [if_true, update_none]
  rw [applyCheckpoints_map _ _ hcps]
  have hlast := lastRow_map_content row0 ⟨"Processing", row0.content⟩
    (checkpointSpec (chapterHeader topic) pre) rfl
  rw [hlast]
  simp

theorem run_fetchFail (topic : String) (scenes : List (String × SceneStep))
    (row0 : ChapterRow) :
    background_writer_task topic false scenes row0 =
      ⟨⟨"Error", row0.content⟩,
        [⟨"Processing", row0.content⟩, ⟨"Error", row0.content⟩]⟩ := by
  unfold background_writer_task
  simp [update_none]

/-! ## Claim theorems -/

/-- C1: the consistency check returns `Conflict` iff some existing
assignment of the same entity has a different place (neither being the
`"Unknown"` sentinel), a closed-interval overlap with the candidate's
`[start, end]` interval, and both granularities are `exact`; the
conflicting assignments returned are exactly those existing assignments;
and for a single existing assignment, an approximate granularity on
either side, equal places, or an `"Unknown"` place on either side forces
`Accept`. -/
theorem C1_check_conflict_iff (cand : Assignment) (existing : List Assignment) :
    (check cand existing = CheckResult.Accept ↔
      ∀ e ∈ existing, ¬ GenuineConflictP cand e) ∧
    ((∃ e ∈ existing, GenuineConflictP cand e) ↔
      ∃ cs, check cand existing = CheckResult.Conflict cs) ∧
    (∀ cs, check cand existing = CheckResult.Conflict cs →
      ∀ e ∈ cs, e ∈ existing ∧ GenuineConflictP cand e) ∧
    (∀ e : Assignment,
      (e.granularity = Gran.approximate ∨ cand.granularity = Gran.approximate ∨
        e.place = cand.place ∨ e.place = "Unknown" ∨ cand.place = "Unknown") →
      check cand [e] = CheckResult.Accept) := by
  refine ⟨?_, ?_, ?_, ?_⟩
  · rw [check_eq_accept_iff, List.filter_eq_nil_iff]
    constructor
    · intro h e he hg
      exact h e he ((genuineConflict_eq_true_iff cand e).mpr hg)
    · intro h e he hg
      exact h e he ((genuineConflict_eq_true_iff cand e).mp hg)
  · rw [check_eq_conflict_iff, Ne, List.filter_eq_nil_iff]
    constructor
    · rintro ⟨e, he, hg⟩ h
      exact h e he ((genuineConflict_eq_true_iff cand e).mpr hg)
    · intro h
      push_neg at h
      obtain ⟨e, he, hg⟩ := h
      exact ⟨e, he, (genuineConflict_eq_true_iff cand e).mp hg⟩
  · intro cs hcs e he
    unfold check at hcs
    cases hfil : existing.filter (genuineConflict cand) with
    | nil => rw [hfil] at hcs; simp at hcs
    | cons c rest =>
      rw [hfil] at hcs
      obtain rfl : c :: rest = cs := by injection hcs
      rw [← hfil] at he
      obtain ⟨he1, he2⟩ := List.mem_filter.mp he
      exact ⟨he1, (genuineConflict_eq_true_iff cand e).mp he2⟩
  · intro e hdisj
    rw [check_eq_accept_iff, List.filter_eq_nil_iff]
    intro a ha
    rw [List.mem_singleton] at ha
    subst ha
    intro hg
    obtain ⟨h1, h2, h3, h4, h5, h6, h7, h8⟩ :=
      (genuineConflict_eq_true_iff cand a).mp hg
    rcases hdisj with hd | hd | hd | hd | hd
    · rw [hd] at h7; simp at h7
    · rw [hd] at h8; simp at h8
    · exact h2 hd
    · exact h3 hd
    · exact h4 hd

/-- Witness for C1: "Napoleon" at "Paris" on day 0 (exact) conflicts with
a candidate "Napoleon" at "Milan" on day 0 (exact), while an approximate
year-long "Milan" candidate is accepted. -/
theorem C1_check_conflict_iff_witness :
    check ⟨"Napoleon", "Milan", 0, 364, Gran.approximate⟩
        [⟨"Napoleon", "Paris", 0, 0, Gran.exact⟩] = CheckResult.Accept ∧
    (∃ cs, check ⟨"Napoleon", "Milan", 0, 0, Gran.exact⟩
        [⟨"Napoleon", "Paris", 0, 0, Gran.exact⟩] = CheckResult.Conflict cs) := by
  constructor
  · exact (C1_check_conflict_iff ⟨"Napoleon", "Milan", 0, 364, Gran.approximate⟩
      [⟨"Napoleon", "Paris", 0, 0, Gran.exact⟩]).2.2.2
      ⟨"Napoleon", "Paris", 0, 0, Gran.exact⟩ (Or.inr (Or.inl rfl))
  · exact (C1_check_conflict_iff ⟨"Napoleon", "Milan", 0, 0, Gran.exact⟩
      [⟨"Napoleon", "Paris", 0, 0, Gran.exact⟩]).2.1.mp
      ⟨⟨"Napoleon", "Paris", 0, 0, Gran.exact⟩, List.mem_singleton.mpr rfl, by decide⟩

/-- C2: a proposed fact is persisted exactly when the checker accepts it
against the existing assignments of its entity; on conflict the store is
unchanged and the conflicting assignments are returned to the caller. -/
theorem C2_propose_checked (st : StoreState) (cand : Assignment) :
    (check cand (st.assignments.filter (fun e => e.entity == cand.entity)) =
        CheckResult.Accept →
      (propose st cand).1 = ProposeResult.Accepted ∧
      (propose st cand).2.assignments = st.assignments ++ [cand]) ∧
    (∀ cs, check cand (st.assignments.filter (fun e => e.entity == cand.entity)) =
        CheckResult.Conflict cs →
      (propose st cand).1 = ProposeResult.Rejected cs ∧
      (propose st cand).2 = st) ∧
    ((propose st cand).2.assignments ≠ st.assignments →
      check cand (st.assignments.filter (fun e => e.entity == cand.entity)) =
        CheckResult.Accept) := by
  have hp : propose st cand =
      match check cand (st.assignments.filter (fun e => e.entity == cand.entity)) with
      | CheckResult.Accept =>
          (ProposeResult.Accepted,
            { assignments := st.assignments ++ [cand],
              entities := upsertEntity st.entities cand.entity })
      | CheckResult.Conflict cs => (ProposeResult.Rejected cs, st) := rfl
  rw [hp]
  cases h : check cand (st.assignments.filter (fun e => e.entity == cand.entity)) with
  | Accept =>
    exact ⟨fun _ => ⟨rfl, rfl⟩, fun cs' hcs' => absurd hcs' (by simp), fun _ => rfl⟩
  | Conflict cs =>
    refine ⟨fun hac => absurd hac (by simp), fun cs' hcs' => ?_, fun hne => ?_⟩
    · obtain rfl : cs = cs' := by injection hcs'
      exact ⟨rfl, rfl⟩
    · exact absurd rfl hne

/-- Witness for C2: on an empty store the "Paris" fact is accepted and
persisted; with it in the store, the overlapping exact "Milan" fact is
rejected, the store unchanged, and the Paris assignment returned. -/
theorem C2_propose_checked_witness :
    ((propose ⟨[], []⟩ ⟨"Napoleon", "Paris", 0, 0, Gran.exact⟩).1 =
        ProposeResult.Accepted ∧
      (propose ⟨[], []⟩ ⟨"Napoleon", "Paris", 0, 0, Gran.exact⟩).2.assignments =
        [] ++ [⟨"Napoleon", "Paris", 0, 0, Gran.exact⟩]) ∧
    ((propose ⟨[⟨"Napoleon", "Paris", 0, 0, Gran.exact⟩], ["Napoleon"]⟩
        ⟨"Napoleon", "Milan", 0, 0, Gran.exact⟩).1 =
        ProposeResult.Rejected [⟨"Napoleon", "Paris", 0, 0, Gran.exact⟩] ∧
      (propose ⟨[⟨"Napoleon", "Paris", 0, 0, Gran.exact⟩], ["Napoleon"]⟩
        ⟨"Napoleon", "Milan", 0, 0, Gran.exact⟩).2 =
        ⟨[⟨"Napoleon", "Paris", 0, 0, Gran.exact⟩], ["Napoleon"]⟩) := by
  constructor
  · exact (C2_propose_checked ⟨[], []⟩ ⟨"Napoleon", "Paris", 0, 0, Gran.exact⟩).1
      (by decide)
  · exact (C2_propose_checked ⟨[⟨"Napoleon", "Paris", 0, 0, Gran.exact⟩], ["Napoleon"]⟩
      ⟨"Napoleon", "Milan", 0, 0, Gran.exact⟩).2.1
      [⟨"Napoleon", "Paris", 0, 0, Gran.exact⟩] (by decide)

/-- C8: the drain check exits 1 (unsafe) whenever the store query fails,
exits 0 (safe) exactly when the count of `'Processing'` chapters is 0,
and exits 1 exactly when that count is at least 1. -/
theorem C8_drain_check (statuses : List String) :
    check_active_jobs (Except.error ()) = 1 ∧
    (check_active_jobs (Except.ok statuses) = 0 ↔
      (statuses.filter (fun s => s == "Processing")).length = 0) ∧
    (check_active_jobs (Except.ok statuses) = 1 ↔
      1 ≤ (statuses.filter (fun s => s == "Processing")).length) := by
  refine ⟨rfl, ?_, ?_⟩ <;>
  · unfold check_active_jobs
    rcases Nat.eq_zero_or_pos
      ((statuses.filter (fun s => s == "Processing")).length) with h | h
    · simp [h]
    · simp [h, Nat.pos_iff_ne_zero.mp h] <;> omega

/-- C10: a status update whose content argument is `None` or the empty
string changes only the status column and leaves content untouched; in
particular the `Error` transition preserves previously persisted
content. -/
theorem C10_status_only_update (row : ChapterRow) (st : String) :
    update_chapter_status row st none = ⟨st, row.content⟩ ∧
    update_chapter_status row st (some "") = ⟨st, row.content⟩ ∧
    (update_chapter_status row "Error" none).content = row.content ∧
    (update_chapter_status row "Error" none).status = "Error" := by
  refine ⟨update_none row st, ?_, ?_, ?_⟩ <;> simp [update_chapter_status, pyTruthy]

theorem noAbort_append_fail (pre post : List (String × SceneStep)) (sub : String)
    (hpre : NoAbort pre) (hpost : NoAbort post) :
    NoAbort (pre ++ (sub, SceneStep.fail) :: post) := by
  intro p hp
  rcases List.mem_append.mp hp with h | h
  · exact hpre p h
  · rcases List.mem_cons.mp h with h | h
    · subst h; simp
    · exact hpost p h

/-- Counterexample to C3 as stated: starting the pipeline on a chapter row
whose status is already `"Processing"` is not rejected — the run proceeds,
writes, and completes. -/
theorem C3_no_cas_counterexample :
    (background_writer_task "T" true [("S", SceneStep.ok "text" "sum")]
      ⟨"Processing", some "first run"⟩).trace.head? =
      some ⟨"Processing", some "first run"⟩ ∧
    (background_writer_task "T" true [("S", SceneStep.ok "text" "sum")]
      ⟨"Processing", some "first run"⟩).final.status = "Completed" ∧
    (background_writer_task "T" true [("S", SceneStep.ok "text" "sum")]
      ⟨"Processing", some "first run"⟩).trace.length = 3 := by
  refine ⟨rfl, rfl, rfl⟩

/-- C3 as amended: the run's first store write unconditionally sets the
status to `"Processing"` — a plain `UPDATE` with no compare-and-set and no
status check — for every initial status, and the run always goes on to
write at least once more; a start request on an already-processing unit
is therefore not rejected. -/
theorem C3_start_unconditional (topic : String) (fetchOk : Bool)
    (scenes : List (String × SceneStep)) (row0 : ChapterRow) :
    (background_writer_task topic fetchOk scenes row0).trace.head? =
      some ⟨"Processing", row0.content⟩ ∧
    2 ≤ (background_writer_task topic fetchOk scenes row0).trace.length := by
  unfold background_writer_task
  cases fetchOk with
  | false => simp [update_none]
  | true =>
    cases hab : (writeLoop scenes (chapterHeader topic) "The chapter begins.").aborted with
    | false => simp [update_none, hab]
    | true => simp [update_none, hab]

/-- Counterexample to C4 as stated: with the synthesizer failing on scene
1 of 2, the run still produces scene 2 and finishes `"Completed"`, not
`"Error"`. -/
theorem C4_fail_continues_counterexample :
    (background_writer_task "T" true
      [("A", SceneStep.fail), ("B", SceneStep.ok "Btext" "Bsum")]
      ⟨"Draft", some "outline"⟩).final.status = "Completed" ∧
    (background_writer_task "T" true
      [("A", SceneStep.fail), ("B", SceneStep.ok "Btext" "Bsum")]
      ⟨"Draft", some "outline"⟩).final.status ≠ "Error" ∧
    (background_writer_task "T" true
      [("A", SceneStep.fail), ("B", SceneStep.ok "Btext" "Bsum")]
      ⟨"Draft", some "outline"⟩).final.content =
      some (chapterHeader "T" ++ placeholderBlock "A" ++ sectionBlock "B" "Btext") := by
  refine ⟨rfl, by decide, by decide⟩

/-- C4 as amended: when the synthesizer fails on scene `k`, the persisted
content after the run holds scenes `1..k-1` in full plus the placeholder
for `k` — but the run continues with scenes `k+1..n`, whose sections
follow the placeholder, and (absent an unhandled exception) the final
status is `"Completed"`, not `"Error"`. -/
theorem C4_fail_placeholder_then_continue (topic : String) (row0 : ChapterRow)
    (pre post : List (String × SceneStep)) (sub : String)
    (hpre : NoAbort pre) (hpost : NoAbort post) :
    (background_writer_task topic true (pre ++ (sub, SceneStep.fail) :: post)
        row0).final =
      ⟨"Completed", some (chapterHeader topic ++
        (renderScenes pre ++ (placeholderBlock sub ++ renderScenes post)))⟩ := by
  rw [run_noAbort topic _ row0 (noAbort_append_fail pre post sub hpre hpost)]
  simp [renderScenes_append, renderScenes, sceneBlock, String.append_assoc]

/-- Witness for C4 (amended): a concrete three-scene run failing on the
middle scene. -/
theorem C4_fail_placeholder_then_continue_witness :
    (background_writer_task "T" true
        ([("A", SceneStep.ok "Atext" "Asum")] ++ ("B", SceneStep.fail) ::
          [("C", SceneStep.ok "Ctext" "Csum")]) ⟨"Draft", none⟩).final =
      ⟨"Completed", some (chapterHeader "T" ++
        (renderScenes [("A", SceneStep.ok "Atext" "Asum")] ++
          (placeholderBlock "B" ++
            renderScenes [("C", SceneStep.ok "Ctext" "Csum")])))⟩ :=
  C4_fail_placeholder_then_continue "T" ⟨"Draft", none⟩
    [("A", SceneStep.ok "Atext" "Asum")] [("C", SceneStep.ok "Ctext" "Csum")] "B"
    (by decide) (by decide)

/-- C5: a provider failure on one scene is recovered locally: the loop
does not abort, the final status is `"Completed"`, and the placeholder
for the failed scene is visible in the persisted content, followed by the
sections of all later scenes. -/
theorem C5_scene_failure_recovered (topic : String) (row0 : ChapterRow)
    (pre post : List (String × SceneStep)) (sub : String)
    (hpre : NoAbort pre) (hpost : NoAbort post) :
    (writeLoop (pre ++ (sub, SceneStep.fail) :: post) (chapterHeader topic)
      "The chapter begins.").aborted = false ∧
    (background_writer_task topic true (pre ++ (sub, SceneStep.fail) :: post)
      row0).final.status = "Completed" ∧
    ∃ a, (background_writer_task topic true (pre ++ (sub, SceneStep.fail) :: post)
        row0).final.content = some (a ++ (placeholderBlock sub ++ renderScenes post)) := by
  have hall := noAbort_append_fail pre post sub hpre hpost
  refine ⟨?_, ?_, ⟨chapterHeader topic ++ renderScenes pre, ?_⟩⟩
  · rw [writeLoop_noAbort _ _ _ hall]
  · rw [run_noAbort topic _ row0 hall]
  · rw [run_noAbort topic _ row0 hall]
    simp [renderScenes_append, renderScenes, sceneBlock, String.append_assoc]

/-- Witness for C5: a concrete two-scene run failing on the first scene. -/
theorem C5_scene_failure_recovered_witness :
    (writeLoop ([] ++ ("B", SceneStep.fail) :: [("C", SceneStep.ok "Ctext" "Csum")])
      (chapterHeader "U") "The chapter begins.").aborted = false ∧
    (background_writer_task "U" true
      ([] ++ ("B", SceneStep.fail) :: [("C", SceneStep.ok "Ctext" "Csum")])
      ⟨"Draft", none⟩).final.status = "Completed" ∧
    ∃ a, (background_writer_task "U" true
        ([] ++ ("B", SceneStep.fail) :: [("C", SceneStep.ok "Ctext" "Csum")])
        ⟨"Draft", none⟩).final.content =
      some (a ++ (placeholderBlock "B" ++
        renderScenes [("C", SceneStep.ok "Ctext" "Csum")])) :=
  C5_scene_failure_recovered "U" ⟨"Draft", none⟩ [] [("C", SceneStep.ok "Ctext" "Csum")]
    "B" (by decide) (by decide)

/-- Counterexample to C6 as stated: with scene 1 of 2 failing, only one
mid-run checkpoint is written for the two scenes (none after the failed
scene), and its content also carries the failed scene's placeholder — not
only the concatenation of the scenes completed so far. -/
theorem C6_checkpoint_every_scene_counterexample :
    (background_writer_task "T" true
      [("A", SceneStep.fail), ("B", SceneStep.ok "Btext" "Bsum")]
      ⟨"Draft", some "outline"⟩).trace =
      [⟨"Processing", some "outline"⟩,
       ⟨"Processing",
         some (chapterHeader "T" ++ placeholderBlock "A" ++ sectionBlock "B" "Btext")⟩,
       ⟨"Completed",
         some (chapterHeader "T" ++ placeholderBlock "A" ++ sectionBlock "B" "Btext")⟩] ∧
    chapterHeader "T" ++ placeholderBlock "A" ++ sectionBlock "B" "Btext" ≠
      chapterHeader "T" ++ sectionBlock "B" "Btext" := by
  refine ⟨by decide, by decide⟩

/-- C6 as amended: the trace of store writes is exactly one `"Processing"`
mark, then one checkpoint per *successful* scene — whose content is the
chapter header followed by the blocks (sections and placeholders) of all
scenes up to and including that success, in outline order — then the
`"Completed"` save; the checkpoint count equals the number of successful
scenes, and the checkpointed contents grow monotonically by extension. -/
theorem C6_checkpoint_after_each_success (topic : String) (row0 : ChapterRow)
    (scenes : List (String × SceneStep)) (h : NoAbort scenes) :
    (background_writer_task topic true scenes row0).trace =
      ⟨"Processing", row0.content⟩ ::
        ((checkpointSpec (chapterHeader topic) scenes).map
          (fun c => (⟨"Processing", some c⟩ : ChapterRow)) ++
        [⟨"Completed", some (chapterHeader topic ++ renderScenes scenes)⟩]) ∧
    (checkpointSpec (chapterHeader topic) scenes).length =
      (scenes.filter (fun sc => isOkStep sc.2)).length ∧
    List.Chain' ExtendsTo
      (chapterHeader topic :: checkpointSpec (chapterHeader topic) scenes) := by
  refine ⟨?_, checkpointSpec_length_noAbort scenes _ h, checkpointSpec_chain scenes _⟩
  rw [run_noAbort topic scenes row0 h]

/-- Witness for C6 (amended): a concrete run with a success, a failure and
a success. -/
theorem C6_checkpoint_after_each_success_witness :
    (background_writer_task "T" true
      [("A", SceneStep.ok "Atext" "Asum"), ("B", SceneStep.fail),
        ("C", SceneStep.ok "Ctext" "Csum")] ⟨"Draft", none⟩).trace =
      ⟨"Processing", none⟩ ::
        ((checkpointSpec (chapterHeader "T")
          [("A", SceneStep.ok "Atext" "Asum"), ("B", SceneStep.fail),
            ("C", SceneStep.ok "Ctext" "Csum")]).map
          (fun c => (⟨"Processing", some c⟩ : ChapterRow)) ++
        [⟨"Completed", some (chapterHeader "T" ++ renderScenes
          [("A", SceneStep.ok "Atext" "Asum"), ("B", SceneStep.fail),
            ("C", SceneStep.ok "Ctext" "Csum")])⟩]) ∧
    (checkpointSpec (chapterHeader "T")
      [("A", SceneStep.ok "Atext" "Asum"), ("B", SceneStep.fail),
        ("C", SceneStep.ok "Ctext" "Csum")]).length =
      ([("A", SceneStep.ok "Atext" "Asum"), ("B", SceneStep.fail),
        ("C", SceneStep.ok "Ctext" "Csum")].filter (fun sc => isOkStep sc.2)).length ∧
    List.Chain' ExtendsTo
      (chapterHeader "T" :: checkpointSpec (chapterHeader "T")
        [("A", SceneStep.ok "Atext" "Asum"), ("B", SceneStep.fail),
          ("C", SceneStep.ok "Ctext" "Csum")]) :=
  C6_checkpoint_after_each_success "T" ⟨"Draft", none⟩
    [("A", SceneStep.ok "Atext" "Asum"), ("B", SceneStep.fail),
      ("C", SceneStep.ok "Ctext" "Csum")] (by decide)

/-- Counterexample to C7 as stated: with scene 1's placeholder accumulated
but not yet checkpointed, an unhandled exception at scene 2 leaves the
persisted content at its pre-run value — the accumulated narrative
(header plus placeholder) is not persisted by the error path. -/
theorem C7_error_drops_unpersisted_counterexample :
    (writeLoop [("A", SceneStep.fail), ("B", SceneStep.abort)] (chapterHeader "T")
      "The chapter begins.").narrative = chapterHeader "T" ++ placeholderBlock "A" ∧
    (background_writer_task "T" true [("A", SceneStep.fail), ("B", SceneStep.abort)]
      ⟨"Draft", some "outline"⟩).final = ⟨"Error", some "outline"⟩ ∧
    (some "outline" : Option String) ≠
      some (chapterHeader "T" ++ placeholderBlock "A") := by
  refine ⟨by decide, by decide, by decide⟩

/-- C7 as amended: on an unhandled exception the run sets status
`"Error"` with a status-only update: the content column keeps exactly the
last checkpointed narrative (or the pre-run content when no checkpoint was
written) — persisted partial output is retained, but content accumulated
since the last checkpoint is not written.  A fetch-phase failure likewise
ends `"Error"` with the pre-run content intact. -/
theorem C7_error_preserves_checkpoints (topic sub : String)
    (pre post : List (String × SceneStep)) (row0 : ChapterRow)
    (hpre : NoAbort pre) :
    (background_writer_task topic true (pre ++ (sub, SceneStep.abort) :: post)
        row0).final =
      ⟨"Error", lastContent row0 (checkpointSpec (chapterHeader topic) pre)⟩ ∧
    (∀ scenes, (background_writer_task topic false scenes row0).final =
      ⟨"Error", row0.content⟩) := by
  refine ⟨?_, fun scenes => ?_⟩
  · rw [run_abortAt topic sub pre post row0 hpre]
  · rw [run_fetchFail]

/-- Witness for C7 (amended): a concrete run aborting after one successful
scene. -/
theorem C7_error_preserves_checkpoints_witness :
    (background_writer_task "T" true
        ([("A", SceneStep.ok "Atext" "Asum")] ++ ("B", SceneStep.abort) :: [])
        ⟨"Draft", some "outline"⟩).final =
      ⟨"Error", lastContent ⟨"Draft", some "outline"⟩
        (checkpointSpec (chapterHeader "T") [("A", SceneStep.ok "Atext" "Asum")])⟩ ∧
    (∀ scenes, (background_writer_task "T" false scenes
        ⟨"Draft", some "outline"⟩).final = ⟨"Error", some "outline"⟩) :=
  C7_error_preserves_checkpoints "T" "B" [("A", SceneStep.ok "Atext" "Asum")] []
    ⟨"Draft", some "outline"⟩ (by decide)

/-- Counterexample to C9 as stated: a parseable provider response with a
single title is used as-is — the planner does not enforce the 3-to-15
bound on success. -/
theorem C9_bounds_counterexample :
    plannedSubtopics (PlanOutcome.parsed ["Only scene"]) = ["Only scene"] ∧
    ¬ (3 ≤ (plannedSubtopics (PlanOutcome.parsed ["Only scene"])).length ∧
       (plannedSubtopics (PlanOutcome.parsed ["Only scene"])).length ≤ 15) := by
  refine ⟨rfl, by decide⟩

/-- C9 as amended: when the planning call fails or its output is
unusable, the planner falls back to the fixed 3-entry generic outline
(which lies within the 3-to-15 bound) instead of failing the job; on a
successful parse the returned list is used as-is, with no length bound
enforced. -/
theorem C9_fallback_outline (l : List String) :
    plannedSubtopics PlanOutcome.failed =
      ["Introduction", "Main Event", "Conclusion"] ∧
    (plannedSubtopics PlanOutcome.failed).length = 3 ∧
    3 ≤ (plannedSubtopics PlanOutcome.failed).length ∧
    (plannedSubtopics PlanOutcome.failed).length ≤ 15 ∧
    plannedSubtopics (PlanOutcome.parsed l) = l := by
  exact ⟨rfl, rfl, by decide, by decide, rfl⟩

end Newsroom
